import Mathlib

/-!
Verification of the fsspec Arrow filesystem adapter
(`fsspec/implementations/arrow.py`).

The Python module is shallowly embedded: pure helpers become Lean
functions; provider calls are modelled by a `Provider` record of outcome
functions plus an explicit trace of provider-facing effects; Python
exceptions become an `Exc` type (`OSError`/`FileNotFoundError` are the
`os` constructor, with `FileNotFoundError` marked by its Boolean flag,
matching the Python subclass relation; `ValueError` and other
non-OS errors are separate constructors).
-/

set_option autoImplicit false

deriving instance DecidableEq for Except

namespace ArrowFS

/-! ### String helpers (Python `in`, `partition`, `rstrip`) -/

/-- Split a character list at the first occurrence of the pattern `pat`,
returning the parts before and after it, as Python `partition` does. -/
def splitFirst (pat : List Char) : List Char → Option (List Char × List Char)
  | [] => none
  | c :: cs =>
    if List.isPrefixOf pat (c :: cs) then some ([], List.drop pat.length (c :: cs))
    else
      match splitFirst pat cs with
      | some (pre, post) => some (c :: pre, post)
      | none => none

/-- Python `pat in s` for a non-empty pattern. -/
def strContainsSub (s pat : String) : Bool :=
  (splitFirst pat.data s.data).isSome

/-- The part of `s` after the first occurrence of `pat`
(the third component of Python `s.partition(pat)`). -/
def afterFirst (s pat : String) : String :=
  match splitFirst pat.data s.data with
  | some (_, post) => String.mk post
  | none => ""

/-- Python `s.rstrip("/")`: remove every trailing slash. -/
def rstripSlash (s : String) : String :=
  String.mk (List.dropWhile (fun c => c == '/') s.data.reverse).reverse

/-- A single-quote character as a string (used by Python `repr`). -/
def squote : String := String.mk [Char.ofNat 39]

/-- Python `repr` of a plain string, as produced by the `{mode!r}`
interpolation in the unsupported-mode error message. -/
def pyRepr (s : String) : String := squote ++ s ++ squote

/-! ### Exceptions -/

/-- One element of a Python exception's `args` tuple: either a string or
a number (the only shapes the adapter ever inspects or builds). -/
inductive ExcArg where
  | str (s : String)
  | nat (n : Nat)
deriving DecidableEq, Repr

/-- Python exceptions visible in the module.  `os notFound args` is an
`OSError` with the given `args` tuple, and is a `FileNotFoundError`
exactly when `notFound = true` (`FileNotFoundError` is an `OSError`
subclass).  `valueError` is `ValueError`; `other` is any non-OS error. -/
inductive Exc where
  | os (notFound : Bool) (args : List ExcArg)
  | valueError (msg : String)
  | other (tag : String)
deriving DecidableEq, Repr

/-- Does `except OSError` catch this exception? -/
def Exc.isOSError : Exc → Bool
  | .os _ _ => true
  | _ => false

/-- Does `except FileNotFoundError` (or `suppress(FileNotFoundError)`)
catch this exception? -/
def Exc.isFileNotFound : Exc → Bool
  | .os nf _ => nf
  | _ => false

/-- The constant `errno.ENOENT`. -/
def ENOENT : Nat := 2

/-- The message `os.strerror(errno.ENOENT)`. -/
def strerrorENOENT : String := "No such file or directory"

/-- The error transformation performed by `wrap_exceptions`: an `OSError`
with no args is re-raised unchanged; if its first arg is a string whose
text contains "does not exist" it is re-raised as
`FileNotFoundError(errno.ENOENT, message)`; any other exception is
re-raised unchanged. -/
def normalizeExc : Exc → Exc
  | .os b [] => .os b []
  | .os b (.str m :: rest) =>
    if strContainsSub m "does not exist" then .os true [.nat ENOENT, .str m]
    else .os b (.str m :: rest)
  | .os b (.nat n :: rest) => .os b (.nat n :: rest)
  | .valueError m => .valueError m
  | .other t => .other t

/-- The decorator `wrap_exceptions` applied to the outcome of a wrapped call. -/
def wrapExcept {α : Type} : Except Exc α → Except Exc α
  | .ok a => .ok a
  | .error e => .error (normalizeExc e)

/-- Is the outcome a success? -/
def exIsOk {α : Type} : Except Exc α → Bool
  | .ok _ => true
  | .error _ => false

/-! ### Provider-native records and the generic entry shape -/

/-- The provider type tag `pyarrow.fs.FileType`. -/
inductive FileType where
  | Directory
  | File
  | NotFound
  | Unknown
deriving DecidableEq, Repr

/-- A provider-native info record (`pyarrow.fs.FileInfo`): path, type
tag, size (absent for directories), modification time. -/
structure FileInfo where
  path : String
  type : FileType
  size : Option Int
  mtime : Option Int
deriving DecidableEq, Repr

/-- The generic entry shape `{name, size, type, mtime}` returned by
`_make_entry`; `type` is one of "file", "directory", "other". -/
structure Entry where
  name : String
  size : Option Int
  type : String
  mtime : Option Int
deriving DecidableEq, Repr

/-- Source `ArrowFSWrapper._make_entry`: translate a provider-native record into
the generic entry shape, raising
`FileNotFoundError(errno.ENOENT, os.strerror(errno.ENOENT), info.path)`
on the `NotFound` tag. -/
def _make_entry (info : FileInfo) : Except Exc Entry :=
  match info.type with
  | .Directory => .ok ⟨info.path, info.size, "directory", info.mtime⟩
  | .File => .ok ⟨info.path, info.size, "file", info.mtime⟩
  | .NotFound => .error (.os true [.nat ENOENT, .str strerrorENOENT, .str info.path])
  | .Unknown => .ok ⟨info.path, info.size, "other", info.mtime⟩

/-! ### Path normalization -/

/-- Source `ArrowFSWrapper._strip_protocol`: if the path contains "://", keep
only the part after its first occurrence (Python `partition`). -/
def _strip_protocol (path : String) : String :=
  if strContainsSub path "://" then afterFirst path "://" else path

/-- Modelled from the spec: the generic abstraction's `_parent`
(`AbstractFileSystem._parent`, not under `src/`) — "Construct a unique
temporary name in path2's parent directory"; the parent of a path is the
normalized path with its final "/"-separated component removed, the root
marker "/" when there is no slash. -/
def _parent (path : String) : String :=
  let p := _strip_protocol path
  if p.data.contains '/' then
    let pre := (List.dropWhile (fun c => c != '/') p.data.reverse).reverse.dropLast
    String.mk ('/' :: List.dropWhile (fun c => c == '/') pre)
  else "/"

/-! ### The provider and the trace of provider-facing calls -/

/-- One provider-facing call, recording the exact arguments handed to
the provider. -/
inductive Effect where
  | getInfoSelector (p : String)
  | getInfo (p : String)
  | openInput (p : String)
  | openOutput (p : String)
  | move (src dst : String)
  | deleteFile (p : String)
  | deleteDir (p : String)
  | createDir (p : String) (recursive : Bool)
deriving DecidableEq, Repr

/-- The wrapped provider (`pyarrow.fs.FileSystem`): each primitive's
outcome as a function of its arguments.  `get_file_info_selector` is
`get_file_info(FileSelector(path))`, `get_file_info` is
`get_file_info([path])`. -/
structure Provider where
  get_file_info : String → Except Exc FileInfo
  get_file_info_selector : String → Except Exc (List FileInfo)
  open_input_stream : String → Except Exc Unit
  open_output_stream : String → Except Exc Unit
  move : String → String → Except Exc Unit
  delete_file : String → Except Exc Unit
  delete_dir : String → Except Exc Unit
  create_dir : String → Bool → Except Exc Unit

/-- Contents of the backing store: each path maps to the byte string of
a file stored there, if any. -/
def Store : Type := String → Option (List Nat)

/-- Update the store at one path. -/
def setStore (st : Store) (k : String) (v : Option (List Nat)) : Store :=
  fun q => if q = k then v else st q

/-! ### File handles -/

/-- Which provider stream an `ArrowFile` wraps. -/
inductive StreamKind where
  | input
  | output
deriving DecidableEq, Repr

/-- The file-handle proxy returned by `_open`. -/
structure ArrowFile where
  path : String
  mode : String
  stream : StreamKind
  block_size : Option Nat
deriving DecidableEq, Repr

/-! ### The adapter's operations

Each operation returns its outcome together with the chronological list
of provider-facing calls it made.  Operations decorated with
`@wrap_exceptions` in the source apply `wrapExcept` to their outcome;
`ls`, `info` and `exists` are not decorated in the source and do not. -/

/-- The list comprehension in `ls`: translate each record, propagating
the first failure. -/
def mapEntries : List FileInfo → Except Exc (List Entry)
  | [] => .ok []
  | i :: is =>
    match _make_entry i with
    | .error e => .error e
    | .ok en =>
      match mapEntries is with
      | .error e => .error e
      | .ok ens => .ok (en :: ens)

/-- Result shape of `ls`: entries when `detail`, else bare names. -/
inductive LsOut where
  | entries (es : List Entry)
  | names (ns : List String)
deriving DecidableEq, Repr

/-- Source `ArrowFSWrapper.ls`: query the provider's selector with the caller's
path as given (no normalization), translate each record. -/
def ls (fs : Provider) (path : String) (detail : Bool) :
    Except Exc LsOut × List Effect :=
  match fs.get_file_info_selector path with
  | .error e => (.error e, [.getInfoSelector path])
  | .ok infos =>
    match mapEntries infos with
    | .error e => (.error e, [.getInfoSelector path])
    | .ok es =>
      (.ok (if detail then .entries es else .names (es.map Entry.name)),
       [.getInfoSelector path])

/-- Source `ArrowFSWrapper.info`: normalize the path, look up a single record,
translate it. -/
def info (fs : Provider) (path : String) : Except Exc Entry × List Effect :=
  let p := _strip_protocol path
  match fs.get_file_info p with
  | .error e => (.error e, [.getInfo p])
  | .ok i => (_make_entry i, [.getInfo p])

/-- Source `ArrowFSWrapper.exists`: normalize, call `info`; `False` when it
raises `FileNotFoundError`, `True` on success, any other exception
propagates. -/
def exists' (fs : Provider) (path : String) : Except Exc Bool × List Effect :=
  let p := _strip_protocol path
  match info fs p with
  | (.ok _, tr) => (.ok true, tr)
  | (.error e, tr) =>
    if e.isFileNotFound then (.ok false, tr) else (.error e, tr)

/-- Modelled from the spec: `AbstractFileSystem.isdir` (not under
`src/`) — whether "the target is a directory": `info` succeeds and
reports type "directory"; a failure means it is not a directory. -/
def isdir (fs : Provider) (path : String) : Bool :=
  match (info fs path).1 with
  | .ok en => en.type == "directory"
  | .error _ => false

/-- Source `ArrowFSWrapper.mv` (and its alias `mv_file`): normalize both paths,
strip trailing slashes, delegate to the provider's move. -/
def mv (fs : Provider) (path1 path2 : String) : Except Exc Unit × List Effect :=
  let p1 := rstripSlash (_strip_protocol path1)
  let p2 := rstripSlash (_strip_protocol path2)
  (wrapExcept (fs.move p1 p2), [.move p1 p2])

/-- Source `ArrowFSWrapper.rm_file`: normalize, delegate to the provider's
single-file delete. -/
def rm_file (fs : Provider) (path : String) : Except Exc Unit × List Effect :=
  let p := _strip_protocol path
  (wrapExcept (fs.delete_file p), [.deleteFile p])

/-- The `ValueError` message raised by `rm` for a directory without
`recursive` (verbatim from the source, including its typo). -/
def rmDirMsg : String :=
  "Can" ++ squote ++ "t delete directories without recursive=False"

/-- Source `ArrowFSWrapper.rm`: normalize and strip trailing slashes; a
directory requires `recursive`, else `ValueError`; a file is deleted
regardless of `recursive`; `maxdepth` is accepted and ignored. -/
def rm (fs : Provider) (path : String) (recursive : Bool)
    (maxdepth : Option Nat) : Except Exc Unit × List Effect :=
  let p := rstripSlash (_strip_protocol path)
  if isdir fs p then
    if recursive then (wrapExcept (fs.delete_dir p), [.deleteDir p])
    else (.error (.valueError rmDirMsg), [])
  else (wrapExcept (fs.delete_file p), [.deleteFile p])

/-- Source `ArrowFSWrapper._open`: mode "rb" opens the provider's input
stream, "wb" its output stream, wrapping it in an `ArrowFile`; any
other mode raises `ValueError` before touching the provider. -/
def _open (fs : Provider) (path : String) (mode : String)
    (block_size : Option Nat) : Except Exc ArrowFile × List Effect :=
  if mode = "rb" then
    (wrapExcept ((fs.open_input_stream path).map
        fun _ => ⟨path, mode, .input, block_size⟩),
     [.openInput path])
  else if mode = "wb" then
    (wrapExcept ((fs.open_output_stream path).map
        fun _ => ⟨path, mode, .output, block_size⟩),
     [.openOutput path])
  else
    (.error (.valueError ("unsupported mode for Arrow filesystem: " ++ pyRepr mode)),
     [])

/-- Modelled from the spec: the public `open`
(`AbstractFileSystem.open`, not under `src/`) normalizes the path and
delegates to `_open`. -/
def open' (fs : Provider) (path : String) (mode : String)
    (block_size : Option Nat) : Except Exc ArrowFile × List Effect :=
  _open fs (_strip_protocol path) mode block_size

/-- Source `ArrowFSWrapper.makedirs`: normalize, recursive provider
`create_dir`; `exist_ok` has no enforceable effect. -/
def makedirs (fs : Provider) (path : String) (exist_ok : Bool) :
    Except Exc Unit × List Effect :=
  let p := _strip_protocol path
  (wrapExcept (fs.create_dir p true), [.createDir p true])

/-- Source `ArrowFSWrapper.mkdir`: with `create_parents`, call
`makedirs(path, exist_ok=True)` on the normalized path; otherwise one
non-recursive provider `create_dir`. -/
def mkdir (fs : Provider) (path : String) (create_parents : Bool) :
    Except Exc Unit × List Effect :=
  let p := _strip_protocol path
  if create_parents then
    let r := makedirs fs p true
    (wrapExcept r.1, r.2)
  else (wrapExcept (fs.create_dir p false), [.createDir p false])

/-- Source `ArrowFSWrapper.rmdir`: normalize, provider `delete_dir`. -/
def rmdir (fs : Provider) (path : String) : Except Exc Unit × List Effect :=
  let p := _strip_protocol path
  (wrapExcept (fs.delete_dir p), [.deleteDir p])

/-! ### The atomic-copy protocol (`cp_file`)

`cp_file` is modelled over an oracle of step outcomes (`CpOutcomes`) and
an explicit `Store`: opening the source, opening the temporary file for
write, the buffered byte copy, the provider move, and the cleanup
delete can each succeed or raise.  `open`/`_open` are themselves
decorated with `wrap_exceptions`, so errors from the two open steps are
already normalized when `cp_file`'s `try` sees them; `shutil.copyfileobj`
and `self.fs.move` raise raw errors.  The whole method is decorated, so
whichever exception escapes is normalized once more on the way out. -/

/-- Outcomes of the individual steps of one `cp_file` execution. -/
structure CpOutcomes where
  openSrc : Except Exc Unit
  openTmp : Except Exc Unit
  copy : Except Exc Unit
  written : List Nat
  move : Except Exc Unit
  deleteTmp : Except Exc Unit
deriving Repr

/-- The temporary name `"/".join([_parent(path2), ".tmp." + token])`,
with `token = secrets.token_hex(16)` modelled as a parameter. -/
def tmpName (path2 token : String) : String :=
  _parent path2 ++ "/" ++ ".tmp." ++ token

/-- The `except BaseException` cleanup of `cp_file`: attempt to delete
the temporary file, suppressing only `FileNotFoundError` from that
delete, then re-raise; the escaping exception is normalized by
`cp_file`'s own `wrap_exceptions` decorator.  Returns the outcome and
the resulting store; `cp_file` records the delete attempt in its
trace. -/
def cpCleanup (oc : CpOutcomes) (st : Store) (tmp : String) (orig : Exc) :
    Except Exc Unit × Store :=
  match oc.deleteTmp with
  | .ok _ => (.error (normalizeExc orig), setStore st tmp none)
  | .error d =>
    if d.isFileNotFound then (.error (normalizeExc orig), st)
    else (.error (normalizeExc d), st)

/-- Source `ArrowFSWrapper.cp_file`, over source bytes `src` stored at `path1`:
open the source for read; open a unique temporary name in the
destination's parent for write; copy all bytes; move the temporary file
onto the destination (atomic full replacement); on any failure after
the source was opened, run the cleanup. -/
def cp_file (oc : CpOutcomes) (st : Store) (src : List Nat)
    (path1 path2 token : String) : Except Exc Unit × Store × List Effect :=
  let p1 := rstripSlash (_strip_protocol path1)
  let p2 := rstripSlash (_strip_protocol path2)
  match oc.openSrc with
  | .error e => (.error (normalizeExc (normalizeExc e)), st, [.openInput p1])
  | .ok _ =>
    let tmp := tmpName p2 token
    let tr0 : List Effect := [.openInput p1, .openOutput tmp]
    match oc.openTmp with
    | .error e =>
      let c := cpCleanup oc st tmp (normalizeExc e)
      (c.1, c.2, tr0 ++ [.deleteFile tmp])
    | .ok _ =>
      match oc.copy with
      | .error e =>
        let c := cpCleanup oc (setStore st tmp (some oc.written)) tmp e
        (c.1, c.2, tr0 ++ [.deleteFile tmp])
      | .ok _ =>
        let st2 := setStore st tmp (some src)
        match oc.move with
        | .error e =>
          let c := cpCleanup oc st2 tmp e
          (c.1, c.2, tr0 ++ [.move tmp p2, .deleteFile tmp])
        | .ok _ =>
          (.ok (), setStore (setStore st2 p2 (some src)) tmp none,
           tr0 ++ [.move tmp p2])

/-- The first exception raised inside `cp_file`'s `try` block (the
"original failure" its cleanup re-raises), as `cp_file`'s handler sees
it: open-step errors arrive normalized by `open`'s own decorator. -/
def cpOrigErr (oc : CpOutcomes) : Option Exc :=
  match oc.openTmp with
  | .error e => some (normalizeExc e)
  | .ok _ =>
    match oc.copy with
    | .error e => some e
    | .ok _ =>
      match oc.move with
      | .error e => some e
      | .ok _ => none

/-! ### Concrete providers and outcome fixtures -/

/-- A provider on which every primitive succeeds trivially; lookups
report a plain file. -/
def trivFS : Provider where
  get_file_info := fun p => .ok ⟨p, .File, some 1, none⟩
  get_file_info_selector := fun p => .ok [⟨p, .File, some 1, none⟩]
  open_input_stream := fun _ => .ok ()
  open_output_stream := fun _ => .ok ()
  move := fun _ _ => .ok ()
  delete_file := fun _ => .ok ()
  delete_dir := fun _ => .ok ()
  create_dir := fun _ _ => .ok ()

/-- A provider that reports every path as an existing directory. -/
def dirFS : Provider where
  get_file_info := fun p => .ok ⟨p, .Directory, none, none⟩
  get_file_info_selector := fun p => .ok [⟨p, .Directory, none, none⟩]
  open_input_stream := fun _ => .ok ()
  open_output_stream := fun _ => .ok ()
  move := fun _ _ => .ok ()
  delete_file := fun _ => .ok ()
  delete_dir := fun _ => .ok ()
  create_dir := fun _ _ => .ok ()

/-- A lookup provider that has a file at "b://c" and nothing anywhere
else (used for the double-normalization counterexample). -/
def twoSchemeFS : Provider where
  get_file_info := fun p =>
    if p = "b://c" then .ok ⟨"b://c", .File, some 3, none⟩
    else .ok ⟨p, .NotFound, none, none⟩
  get_file_info_selector := fun _ => .ok []
  open_input_stream := fun _ => .ok ()
  open_output_stream := fun _ => .ok ()
  move := fun _ _ => .ok ()
  delete_file := fun _ => .ok ()
  delete_dir := fun _ => .ok ()
  create_dir := fun _ _ => .ok ()

/-- A provider-level `OSError` whose message matches the "does not
exist" heuristic. -/
def dneErr : Exc := .os false [.str "p does not exist"]

/-- What `wrap_exceptions` turns `dneErr` into. -/
def dneNotFound : Exc := .os true [.nat ENOENT, .str "p does not exist"]

/-- A provider on which every primitive fails with `dneErr`. -/
def errAllFS : Provider where
  get_file_info := fun _ => .error dneErr
  get_file_info_selector := fun _ => .error dneErr
  open_input_stream := fun _ => .error dneErr
  open_output_stream := fun _ => .error dneErr
  move := fun _ _ => .error dneErr
  delete_file := fun _ => .error dneErr
  delete_dir := fun _ => .error dneErr
  create_dir := fun _ _ => .error dneErr

/-- The empty store. -/
def storeEmpty : Store := fun _ => none

/-- A `cp_file` run on which every step succeeds. -/
def cpOCok : CpOutcomes :=
  ⟨.ok (), .ok (), .ok (), [], .ok (), .ok ()⟩

/-- A `cp_file` run whose provider move fails with a non-matching
`OSError`; the cleanup delete succeeds. -/
def cpOCmoveFail : CpOutcomes :=
  ⟨.ok (), .ok (), .ok (), [], .error (.os false [.str "boom"]), .ok ()⟩

/-- A `cp_file` run that fails at the source open with a matching
`OSError`. -/
def cpOCsrcFail : CpOutcomes :=
  ⟨.error dneErr, .ok (), .ok (), [], .ok (), .ok ()⟩

/-! ### Shared lemmas -/

/-- A path without the scheme marker is a fixed point of
`_strip_protocol`. -/
theorem strip_protocol_fixed (q : String)
    (h : strContainsSub q "://" = false) : _strip_protocol q = q := by
  unfold _strip_protocol
  rw [h]
  simp

/-! ### C4 — idempotence of `_strip_protocol` -/

/-- C4 fails as stated: `partition` keeps everything after the *first*
"://", so a path with two scheme markers is stripped differently by a
second application. -/
theorem C4_counterexample :
    _strip_protocol (_strip_protocol "hdfs://a://b") ≠
      _strip_protocol "hdfs://a://b" := by decide

/-- C4 (amended): for every path `p` containing the scheme marker whose
stripped form contains no further "://" (equivalently, `p` contains the
marker exactly once), `_strip_protocol` is idempotent. -/
theorem C4_strip_idempotent (p : String)
    (h1 : strContainsSub p "://" = true)
    (h2 : strContainsSub (_strip_protocol p) "://" = false) :
    _strip_protocol (_strip_protocol p) = _strip_protocol p :=
  strip_protocol_fixed (_strip_protocol p) h2

/-- Witness for C4: a one-scheme path satisfies both hypotheses. -/
theorem C4_strip_idempotent_witness :
    strContainsSub "hdfs://data/f" "://" = true
  ∧ strContainsSub (_strip_protocol "hdfs://data/f") "://" = false
  ∧ _strip_protocol (_strip_protocol "hdfs://data/f") =
      _strip_protocol "hdfs://data/f" :=
  ⟨by decide, by decide, C4_strip_idempotent "hdfs://data/f" (by decide) (by decide)⟩

/-! ### C5 — the entry translator -/

/-- C5: `_make_entry` maps `Directory` to type "directory", `File` to
"file", the remaining non-`NotFound` tag to "other", and on `NotFound`
raises `FileNotFoundError(ENOENT, strerror(ENOENT), path)` and never
returns an entry. -/
theorem C5_make_entry (i : FileInfo) :
    (i.type = FileType.Directory →
       _make_entry i = .ok ⟨i.path, i.size, "directory", i.mtime⟩)
  ∧ (i.type = FileType.File →
       _make_entry i = .ok ⟨i.path, i.size, "file", i.mtime⟩)
  ∧ (i.type ≠ FileType.Directory → i.type ≠ FileType.File →
     i.type ≠ FileType.NotFound →
       _make_entry i = .ok ⟨i.path, i.size, "other", i.mtime⟩)
  ∧ (i.type = FileType.NotFound →
       _make_entry i =
         .error (.os true [.nat ENOENT, .str strerrorENOENT, .str i.path])
     ∧ Exc.isFileNotFound
         (.os true [.nat ENOENT, .str strerrorENOENT, .str i.path]) = true
     ∧ ∀ en, _make_entry i ≠ .ok en) := by
  obtain ⟨pa, ty, sz, mt⟩ := i
  cases ty <;> simp [_make_entry, Exc.isFileNotFound]

/-- Witness for C5 at a concrete `NotFound` record. -/
theorem C5_make_entry_witness :
    (⟨"/gone", FileType.NotFound, none, none⟩ : FileInfo).type = FileType.NotFound
  ∧ (_make_entry ⟨"/gone", FileType.NotFound, none, none⟩ =
       .error (.os true [.nat ENOENT, .str strerrorENOENT, .str "/gone"])
   ∧ Exc.isFileNotFound
       (.os true [.nat ENOENT, .str strerrorENOENT, .str "/gone"]) = true
   ∧ ∀ en, _make_entry ⟨"/gone", FileType.NotFound, none, none⟩ ≠ .ok en) :=
  ⟨rfl, (C5_make_entry ⟨"/gone", FileType.NotFound, none, none⟩).2.2.2 rfl⟩

/-! ### C6 — the exception normalizer on OS-style errors -/

/-- C6: `wrap_exceptions` re-raises an argument-less `OSError`
unchanged; re-raises one whose (string) message text contains
"does not exist" as `FileNotFoundError(ENOENT, message)`; re-raises any
other `OSError` unchanged; and passes non-OS errors through
untouched. -/
theorem C6_wrap_exceptions (b : Bool) (args : List ExcArg) (m t : String) :
    (normalizeExc (.os b []) = .os b [])
  ∧ (strContainsSub m "does not exist" = true →
       normalizeExc (.os b (.str m :: args)) = .os true [.nat ENOENT, .str m]
     ∧ Exc.isFileNotFound (Exc.os true [.nat ENOENT, .str m]) = true)
  ∧ (strContainsSub m "does not exist" = false →
       normalizeExc (.os b (.str m :: args)) = .os b (.str m :: args))
  ∧ (Exc.isOSError (.valueError t) = false
     ∧ normalizeExc (.valueError t) = .valueError t)
  ∧ (Exc.isOSError (.other t) = false
     ∧ normalizeExc (.other t) = .other t) := by
  refine ⟨rfl, fun h => ?_, fun h => ?_, ⟨rfl, rfl⟩, ⟨rfl, rfl⟩⟩ <;>
    simp [normalizeExc, h, Exc.isFileNotFound]

/-- Witness for C6 at a matching and a non-matching message. -/
theorem C6_wrap_exceptions_witness :
    strContainsSub "p does not exist" "does not exist" = true
  ∧ (normalizeExc (.os false [.str "p does not exist"]) =
       .os true [.nat ENOENT, .str "p does not exist"]
   ∧ Exc.isFileNotFound (Exc.os true [.nat ENOENT, .str "p does not exist"]) = true) :=
  ⟨by decide, (C6_wrap_exceptions false [] "p does not exist" "x").2.1 (by decide)⟩

/-! ### C10 — non-string first argument is never reclassified -/

/-- C10: the normalizer reclassifies only when the first element of the
`args` tuple is a string; an OS-style error whose first argument is a
number is re-raised unchanged, whatever the remaining arguments
contain. -/
theorem C10_nonstring_first_arg (b : Bool) (n : Nat) (rest : List ExcArg) :
    normalizeExc (.os b (.nat n :: rest)) = .os b (.nat n :: rest)
  ∧ normalizeExc (.os false [.nat 2, .str "f does not exist"]) =
      .os false [.nat 2, .str "f does not exist"] :=
  ⟨rfl, rfl⟩

/-! ### C3 — `exists` versus `info` -/

/-- C3 fails as stated: `exists` normalizes and then calls `info`,
which normalizes again, so on a path with two scheme markers the two
methods consult the provider at different paths.  Here `info(p)`
succeeds, yet `exists(p)` returns `false` instead of `true`. -/
theorem C3_counterexample :
    (info twoSchemeFS "x://b://c").1 = .ok ⟨"b://c", some 3, "file", none⟩
  ∧ (exists' twoSchemeFS "x://b://c").1 = .ok false := by decide

/-- C3 (amended): for every path `p` on which normalization is stable
(`_strip_protocol` applied twice equals once — every path with at most
one scheme marker), `exists(p)` returns `false` when `info(p)` raises
`FileNotFoundError`, `true` when `info(p)` succeeds, and propagates any
other failure of `info(p)` unchanged. -/
theorem C3_exists_info (fs : Provider) (p : String)
    (h : _strip_protocol (_strip_protocol p) = _strip_protocol p) :
    (exIsOk (info fs p).1 = true → (exists' fs p).1 = .ok true)
  ∧ (∀ e, (info fs p).1 = .error e → e.isFileNotFound = true →
       (exists' fs p).1 = .ok false)
  ∧ (∀ e, (info fs p).1 = .error e → e.isFileNotFound = false →
       (exists' fs p).1 = .error e) := by
  have key : info fs (_strip_protocol p) = info fs p := by
    unfold info
    rw [h]
  have hex : exists' fs p =
      match info fs p with
      | (.ok _, tr) => (.ok true, tr)
      | (.error e, tr) =>
        if e.isFileNotFound then (.ok false, tr) else (.error e, tr) := by
    unfold exists'
    dsimp only
    rw [key]
  rcases hinfo : info fs p with ⟨r, tr⟩
  rw [hinfo] at hex
  simp only [hinfo]
  cases r with
  | ok en =>
    exact ⟨fun _ => by rw [hex], fun e he _ => by simp at he,
      fun e he _ => by simp at he⟩
  | error e0 =>
    refine ⟨fun hok => by simp [exIsOk] at hok, fun e he hnf => ?_,
      fun e he hnf => ?_⟩ <;>
    · injection he with he'
      subst he'
      rw [hex]
      simp [hnf]

/-- Witness for C3: a present path gives `true`, a missing one gives
`false`. -/
theorem C3_exists_info_witness :
    (_strip_protocol (_strip_protocol "/real/f") = _strip_protocol "/real/f"
   ∧ exIsOk (info trivFS "/real/f").1 = true
   ∧ (exists' trivFS "/real/f").1 = .ok true)
  ∧ ((info twoSchemeFS "/missing").1 =
       .error (.os true [.nat ENOENT, .str strerrorENOENT, .str "/missing"])
   ∧ (exists' twoSchemeFS "/missing").1 = .ok false) :=
  ⟨⟨by decide, by decide, (C3_exists_info trivFS "/real/f" (by decide)).1 (by decide)⟩,
   ⟨by decide,
    (C3_exists_info twoSchemeFS "/missing" (by decide)).2.1
      (.os true [.nat ENOENT, .str strerrorENOENT, .str "/missing"])
      (by decide) (by decide)⟩⟩

/-! ### C7 — `rm` on directories and files -/

/-- C7: on an existing directory, `rm` without `recursive` raises
`ValueError` and calls no provider delete; with `recursive` it deletes
the subtree through the provider's directory delete.  On a
non-directory it deletes the file whatever `recursive` is, and
`maxdepth` never changes the outcome. -/
theorem C7_rm (fs : Provider) (path : String) (r : Bool) (md md' : Option Nat) :
    (isdir fs (rstripSlash (_strip_protocol path)) = true →
        (rm fs path false md).1 = .error (.valueError rmDirMsg)
      ∧ (rm fs path false md).2 = []
      ∧ (rm fs path true md).2 = [.deleteDir (rstripSlash (_strip_protocol path))]
      ∧ (rm fs path true md).1 =
          wrapExcept (fs.delete_dir (rstripSlash (_strip_protocol path))))
  ∧ (isdir fs (rstripSlash (_strip_protocol path)) = false →
        (rm fs path r md).2 = [.deleteFile (rstripSlash (_strip_protocol path))]
      ∧ (rm fs path r md).1 =
          wrapExcept (fs.delete_file (rstripSlash (_strip_protocol path))))
  ∧ rm fs path r md = rm fs path r md' := by
  refine ⟨fun h => ?_, fun h => ?_, rfl⟩ <;> simp [rm, h]

/-- Witness for C7 on a provider that reports a directory everywhere. -/
theorem C7_rm_witness :
    isdir dirFS (rstripSlash (_strip_protocol "/d")) = true
  ∧ ((rm dirFS "/d" false none).1 = .error (.valueError rmDirMsg)
   ∧ (rm dirFS "/d" false none).2 = []
   ∧ (rm dirFS "/d" true none).2 = [.deleteDir (rstripSlash (_strip_protocol "/d"))]
   ∧ (rm dirFS "/d" true none).1 =
       wrapExcept (dirFS.delete_dir (rstripSlash (_strip_protocol "/d")))) :=
  ⟨by decide, (C7_rm dirFS "/d" false none (some 3)).1 (by decide)⟩

/-! ### C8 — `open` modes -/

/-- C8: any mode other than exactly "rb" or "wb" raises `ValueError`
before any provider stream is opened; "rb" opens the provider input
stream and "wb" the output stream, wrapping it in the file-handle
proxy. -/
theorem C8_open (fs : Provider) (p mode : String) (bs : Option Nat) :
    (mode ≠ "rb" → mode ≠ "wb" →
        (open' fs p mode bs).1 =
          .error (.valueError ("unsupported mode for Arrow filesystem: " ++ pyRepr mode))
      ∧ (open' fs p mode bs).2 = [])
  ∧ (open' fs p "rb" bs).2 = [.openInput (_strip_protocol p)]
  ∧ (fs.open_input_stream (_strip_protocol p) = .ok () →
       (open' fs p "rb" bs).1 = .ok ⟨_strip_protocol p, "rb", .input, bs⟩)
  ∧ (open' fs p "wb" bs).2 = [.openOutput (_strip_protocol p)]
  ∧ (fs.open_output_stream (_strip_protocol p) = .ok () →
       (open' fs p "wb" bs).1 = .ok ⟨_strip_protocol p, "wb", .output, bs⟩) := by
  refine ⟨fun h1 h2 => ?_, ?_, fun h => ?_, ?_, fun h => ?_⟩
  · simp [open', _open, h1, h2]
  · simp [open', _open]
  · simp [open', _open, h, wrapExcept, Except.map]
  · simp [open', _open]
  · simp [open', _open, h, wrapExcept, Except.map]

/-! ### C2 — which operations the exception normalizer wraps -/

/-- C2 fails as stated: `ls`, `info` and `exists` are not decorated
with `wrap_exceptions` in the source, so a provider OS-style error
whose message contains "does not exist" propagates from them
unreclassified (the wrapper would have turned it into `dneNotFound`). -/
theorem C2_counterexample :
    (info errAllFS "/x").1 = .error dneErr
  ∧ (ls errAllFS "/x" false).1 = .error dneErr
  ∧ (exists' errAllFS "/x").1 = .error dneErr
  ∧ Exc.isFileNotFound dneErr = false
  ∧ normalizeExc dneErr = dneNotFound := by decide

/-- C2 (amended): the exception-normalizing wrapper is applied to
`cp_file`, `mv` (and `mv_file`), `rm_file`, `rm`, `open`, `mkdir`,
`makedirs` and `rmdir`, so on each of those a provider OS-style error
whose message contains "does not exist" is reclassified to
`FileNotFoundError(ENOENT, message)`; `ls`, `info` and `exists` are not
wrapped, and such an error propagates from them unchanged. -/
theorem C2_wrapped_ops (fs : Provider) (oc : CpOutcomes) (st : Store)
    (src : List Nat) (p q tok m : String) (ex r : Bool) (md : Option Nat)
    (bs : Option Nat) (hm : strContainsSub m "does not exist" = true) :
    (fs.delete_file (_strip_protocol p) = .error (.os false [.str m]) →
       (rm_file fs p).1 = .error (.os true [.nat ENOENT, .str m]))
  ∧ (fs.move (rstripSlash (_strip_protocol p)) (rstripSlash (_strip_protocol q)) =
       .error (.os false [.str m]) →
       (mv fs p q).1 = .error (.os true [.nat ENOENT, .str m]))
  ∧ (fs.delete_dir (_strip_protocol p) = .error (.os false [.str m]) →
       (rmdir fs p).1 = .error (.os true [.nat ENOENT, .str m]))
  ∧ (fs.create_dir (_strip_protocol p) true = .error (.os false [.str m]) →
       (makedirs fs p ex).1 = .error (.os true [.nat ENOENT, .str m]))
  ∧ (fs.create_dir (_strip_protocol p) false = .error (.os false [.str m]) →
       (mkdir fs p false).1 = .error (.os true [.nat ENOENT, .str m]))
  ∧ (fs.open_input_stream (_strip_protocol p) = .error (.os false [.str m]) →
       (open' fs p "rb" bs).1 = .error (.os true [.nat ENOENT, .str m]))
  ∧ (isdir fs (rstripSlash (_strip_protocol p)) = false →
     fs.delete_file (rstripSlash (_strip_protocol p)) = .error (.os false [.str m]) →
       (rm fs p r md).1 = .error (.os true [.nat ENOENT, .str m]))
  ∧ (isdir fs (rstripSlash (_strip_protocol p)) = true →
     fs.delete_dir (rstripSlash (_strip_protocol p)) = .error (.os false [.str m]) →
       (rm fs p true md).1 = .error (.os true [.nat ENOENT, .str m]))
  ∧ (oc.openSrc = .error (.os false [.str m]) →
       (cp_file oc st src p q tok).1 = .error (.os true [.nat ENOENT, .str m]))
  ∧ (∀ e, fs.get_file_info_selector p = .error e → (ls fs p ex).1 = .error e)
  ∧ (∀ e, fs.get_file_info (_strip_protocol p) = .error e → (info fs p).1 = .error e)
  ∧ (∀ e, fs.get_file_info (_strip_protocol (_strip_protocol p)) = .error e →
       e.isFileNotFound = false → (exists' fs p).1 = .error e) := by
  refine ⟨fun h => ?_, fun h => ?_, fun h => ?_, fun h => ?_, fun h => ?_,
    fun h => ?_, fun h1 h2 => ?_, fun h1 h2 => ?_, fun h => ?_,
    fun e h => ?_, fun e h => ?_, fun e h hnf => ?_⟩
  · simp [rm_file, h, wrapExcept, normalizeExc, hm]
  · simp [mv, h, wrapExcept, normalizeExc, hm]
  · simp [rmdir, h, wrapExcept, normalizeExc, hm]
  · simp [makedirs, h, wrapExcept, normalizeExc, hm]
  · simp [mkdir, h, wrapExcept, normalizeExc, hm]
  · simp [open', _open, h, wrapExcept, normalizeExc, hm, Except.map]
  · simp [rm, h1, h2, wrapExcept, normalizeExc, hm]
  · simp [rm, h1, h2, wrapExcept, normalizeExc, hm]
  · simp [cp_file, h, normalizeExc, hm]
  · simp [ls, h]
  · simp [info, h]
  · simp [exists', info, h, hnf]

/-- Witness for C2 on a provider all of whose primitives fail with a
matching message: the wrapped `rm_file` reclassifies, the unwrapped
`info` does not. -/
theorem C2_wrapped_ops_witness :
    strContainsSub "p does not exist" "does not exist" = true
  ∧ errAllFS.delete_file (_strip_protocol "/a") = .error (.os false [.str "p does not exist"])
  ∧ (rm_file errAllFS "/a").1 = .error (.os true [.nat ENOENT, .str "p does not exist"])
  ∧ errAllFS.get_file_info (_strip_protocol "/a") = .error (.os false [.str "p does not exist"])
  ∧ (info errAllFS "/a").1 = .error (.os false [.str "p does not exist"]) := by
  obtain ⟨h1, h2, h3, h4, h5, h6, h7, h8, h9, h10, h11, h12⟩ :=
    C2_wrapped_ops errAllFS cpOCsrcFail storeEmpty [] "/a" "/b" "t"
      "p does not exist" false false none none (by decide)
  exact ⟨by decide, by decide, h1 (by decide), by decide,
    h11 (.os false [.str "p does not exist"]) (by decide)⟩

/-- Witness for C8: mode "rb+" is rejected without touching the
provider; "rb" succeeds. -/
theorem C8_open_witness :
    ("rb+" : String) ≠ "rb" ∧ ("rb+" : String) ≠ "wb"
  ∧ ((open' trivFS "/f" "rb+" none).1 =
       .error (.valueError ("unsupported mode for Arrow filesystem: " ++ pyRepr "rb+"))
   ∧ (open' trivFS "/f" "rb+" none).2 = [])
  ∧ (trivFS.open_input_stream (_strip_protocol "/f") = .ok ()
   ∧ (open' trivFS "/f" "rb" none).1 = .ok ⟨_strip_protocol "/f", "rb", .input, none⟩) :=
  ⟨by decide, by decide,
   (C8_open trivFS "/f" "rb+" none).1 (by decide) (by decide),
   ⟨rfl, (C8_open trivFS "/f" "rb" none).2.2.1 rfl⟩⟩

/-! ### C9 — `ls` forwards its path verbatim, every other operation
normalizes first -/

/-- Helper: `info` always issues exactly one provider lookup, at the
normalized path. -/
theorem info_trace (fs : Provider) (p : String) :
    (info fs p).2 = [.getInfo (_strip_protocol p)] := by
  rcases hx : fs.get_file_info (_strip_protocol p) with e | i <;> simp [info, hx]

/-- Helper: `exists` issues exactly the provider calls of `info` on the
already-normalized path. -/
theorem exists_trace (fs : Provider) (p : String) :
    (exists' fs p).2 = (info fs (_strip_protocol p)).2 := by
  unfold exists'
  dsimp only
  rcases hx : info fs (_strip_protocol p) with ⟨rr, tr⟩
  cases rr with
  | ok en => simp [hx]
  | error e =>
    cases he : e.isFileNotFound <;> simp [hx, he]

/-- C9: `ls` hands the caller's path to the provider's selection
primitive verbatim, while `info`, `exists`, `cp_file`, `mv`,
`rm_file`, `rm`, `open`, `mkdir`, `makedirs` and `rmdir` all strip the
scheme prefix (and, where applicable, trailing slashes) before the
provider sees the path; `exists` and `mkdir(create_parents)` normalize
twice along their delegation chain. -/
theorem C9_path_forwarding (fs : Provider) (p q : String) (d r ex : Bool)
    (md : Option Nat) (bs : Option Nat) (oc : CpOutcomes) (st : Store)
    (src : List Nat) (tok : String) :
    (ls fs p d).2 = [.getInfoSelector p]
  ∧ (info fs p).2 = [.getInfo (_strip_protocol p)]
  ∧ (exists' fs p).2 = [.getInfo (_strip_protocol (_strip_protocol p))]
  ∧ (cp_file oc st src p q tok).2.2.head? =
      some (.openInput (rstripSlash (_strip_protocol p)))
  ∧ (mv fs p q).2 =
      [.move (rstripSlash (_strip_protocol p)) (rstripSlash (_strip_protocol q))]
  ∧ (rm_file fs p).2 = [.deleteFile (_strip_protocol p)]
  ∧ (isdir fs (rstripSlash (_strip_protocol p)) = true →
       (rm fs p true md).2 = [.deleteDir (rstripSlash (_strip_protocol p))])
  ∧ (isdir fs (rstripSlash (_strip_protocol p)) = false →
       (rm fs p r md).2 = [.deleteFile (rstripSlash (_strip_protocol p))])
  ∧ (open' fs p "rb" bs).2 = [.openInput (_strip_protocol p)]
  ∧ (open' fs p "wb" bs).2 = [.openOutput (_strip_protocol p)]
  ∧ (mkdir fs p false).2 = [.createDir (_strip_protocol p) false]
  ∧ (mkdir fs p true).2 = [.createDir (_strip_protocol (_strip_protocol p)) true]
  ∧ (makedirs fs p ex).2 = [.createDir (_strip_protocol p) true]
  ∧ (rmdir fs p).2 = [.deleteDir (_strip_protocol p)] := by
  refine ⟨?_, info_trace fs p, ?_, ?_, rfl, rfl, fun h => ?_, fun h => ?_,
    ?_, ?_, rfl, rfl, rfl, rfl⟩
  · rcases hx : fs.get_file_info_selector p with e | infos
    · simp [ls, hx]
    · rcases hy : mapEntries infos with e | es <;> simp [ls, hx, hy]
  · rw [exists_trace fs p, info_trace fs (_strip_protocol p)]
  · obtain ⟨os, ot, cp, wr, mvv, dt⟩ := oc
    cases os <;> cases ot <;> cases cp <;> cases mvv <;> simp [cp_file]
  · simp [rm, h]
  · simp [rm, h]
  · simp [open', _open]
  · simp [open', _open]

/-- Witness for C9: on a scheme-prefixed path, the provider's selector
receives the prefix intact from `ls`, while `rm`'s directory delete
receives the stripped path. -/
theorem C9_path_forwarding_witness :
    (ls dirFS "hdfs://a" false).2 = [.getInfoSelector "hdfs://a"]
  ∧ isdir dirFS (rstripSlash (_strip_protocol "hdfs://a")) = true
  ∧ (rm dirFS "hdfs://a" true none).2 =
      [.deleteDir (rstripSlash (_strip_protocol "hdfs://a"))] := by
  obtain ⟨h1, _, _, _, _, _, h7, _⟩ :=
    C9_path_forwarding dirFS "hdfs://a" "b" false true false none none
      cpOCok storeEmpty [] "t"
  exact ⟨h1, by decide, h7 (by decide)⟩

/-! ### C1 — the atomic-copy protocol under failure -/

/-- C1: in every `cp_file` execution in which the source was opened and
a later step (opening the temporary file, the byte copy, or the
provider move) raised, the temporary file's delete is attempted; the
original failure is re-raised (normalized once by the adapter-wide
wrapper, §4.2) both when the delete succeeds and when the delete fails
with `FileNotFoundError`, which is suppressed; a delete failure of any
other kind is not suppressed and propagates instead; and the
destination is left untouched, so it is never partially written.  The
uniqueness hypothesis on the temporary name reflects the protocol's
cryptographically-random suffix. -/
theorem C1_cp_file_failure (oc : CpOutcomes) (st : Store) (src : List Nat)
    (path1 path2 token : String) (e : Exc)
    (hsrc : oc.openSrc = .ok ())
    (hfail : cpOrigErr oc = some e)
    (hne : tmpName (rstripSlash (_strip_protocol path2)) token ≠
             rstripSlash (_strip_protocol path2)) :
    Effect.deleteFile (tmpName (rstripSlash (_strip_protocol path2)) token) ∈
      (cp_file oc st src path1 path2 token).2.2
  ∧ (oc.deleteTmp = .ok () →
       (cp_file oc st src path1 path2 token).1 = .error (normalizeExc e))
  ∧ (∀ d, oc.deleteTmp = .error d → d.isFileNotFound = true →
       (cp_file oc st src path1 path2 token).1 = .error (normalizeExc e))
  ∧ (∀ d, oc.deleteTmp = .error d → d.isFileNotFound = false →
       (cp_file oc st src path1 path2 token).1 = .error (normalizeExc d))
  ∧ (cp_file oc st src path1 path2 token).2.1 (rstripSlash (_strip_protocol path2)) =
      st (rstripSlash (_strip_protocol path2)) := by
  have hne2 : ¬ (rstripSlash (_strip_protocol path2) =
      tmpName (rstripSlash (_strip_protocol path2)) token) :=
    fun hh => hne hh.symm
  obtain ⟨os, ot, cp, wr, mvv, dt⟩ := oc
  simp only at hsrc hfail ⊢
  subst hsrc
  cases ot with
  | error e1 =>
    simp only [cpOrigErr, Option.some.injEq] at hfail
    subst hfail
    cases dt with
    | ok u => simp [cp_file, cpCleanup, setStore, hne2]
    | error d => cases hd : d.isFileNotFound <;>
        simp [cp_file, cpCleanup, setStore, hne2, hd]
  | ok u1 =>
    cases cp with
    | error e1 =>
      simp only [cpOrigErr, Option.some.injEq] at hfail
      subst hfail
      cases dt with
      | ok u => simp [cp_file, cpCleanup, setStore, hne2]
      | error d => cases hd : d.isFileNotFound <;>
          simp [cp_file, cpCleanup, setStore, hne2, hd]
    | ok u2 =>
      cases mvv with
      | error e1 =>
        simp only [cpOrigErr, Option.some.injEq] at hfail
        subst hfail
        cases dt with
        | ok u => simp [cp_file, cpCleanup, setStore, hne2]
        | error d => cases hd : d.isFileNotFound <;>
            simp [cp_file, cpCleanup, setStore, hne2, hd]
      | ok u3 => simp [cpOrigErr] at hfail

/-- Witness for C1: the provider move fails with a non-matching
`OSError` and the cleanup delete succeeds: the temp delete is in the
trace, the original error is re-raised, and the destination is
untouched. -/
theorem C1_cp_file_failure_witness :
    cpOCmoveFail.openSrc = .ok ()
  ∧ cpOrigErr cpOCmoveFail = some (.os false [.str "boom"])
  ∧ tmpName (rstripSlash (_strip_protocol "hdfs://a/b")) "t" ≠
      rstripSlash (_strip_protocol "hdfs://a/b")
  ∧ Effect.deleteFile (tmpName (rstripSlash (_strip_protocol "hdfs://a/b")) "t") ∈
      (cp_file cpOCmoveFail storeEmpty [7] "hdfs://s" "hdfs://a/b" "t").2.2
  ∧ (cpOCmoveFail.deleteTmp = .ok () →
      (cp_file cpOCmoveFail storeEmpty [7] "hdfs://s" "hdfs://a/b" "t").1 =
        .error (normalizeExc (.os false [.str "boom"])))
  ∧ (cp_file cpOCmoveFail storeEmpty [7] "hdfs://s" "hdfs://a/b" "t").2.1
      (rstripSlash (_strip_protocol "hdfs://a/b")) =
      storeEmpty (rstripSlash (_strip_protocol "hdfs://a/b")) := by
  obtain ⟨w1, w2, _, _, w5⟩ :=
    C1_cp_file_failure cpOCmoveFail storeEmpty [7] "hdfs://s" "hdfs://a/b" "t"
      (.os false [.str "boom"]) (by decide) (by decide) (by decide)
  exact ⟨by decide, by decide, by decide, w1, w2, w5⟩

end ArrowFS
